import Mathlib

/-!
Verification of the shape-inference, broadcasting and graph-builder core of the
blender-plots repository. Numpy arrays are modelled shallowly as a shape
(a list of dimension lengths) together with row-major flat data; the Blender
backend (bpy) is opaque, so backend calls are recorded as explicit effect values
and backend-raised failures are modelled as error results.
-/

namespace BlenderPlots

deriving instance DecidableEq for Except

/-- A numpy ndarray, modelled as its shape together with its row-major flat data. -/
structure NDArray (α : Type) where
  shape : List Nat
  data : List α
deriving DecidableEq

/-- numpy reshape: same flat data, new shape. -/
def reshape (a : NDArray α) (s : List Nat) : NDArray α := ⟨s, a.data⟩

/-- Effect of numpy tile with reps equal to the array rank and leading entry k,
all other entries 1: the whole array is repeated k times along the leading axis. -/
def np_tile_lead (a : NDArray α) (k : Nat) : NDArray α :=
  { shape := match a.shape with
      | n :: rest => k * n :: rest
      | [] => [k],
    data := (List.replicate k a.data).flatten }

/-- Effect of numpy tile with reps one longer than the array rank and leading
entry k, all other entries 1: a new leading axis of length k is created and the
array repeated along it. -/
def np_tile_new_axis (a : NDArray α) (k : Nat) : NDArray α :=
  { shape := k :: a.shape, data := (List.replicate k a.data).flatten }

/-- Errors raised by tile_data: the NotImplementedError of the base class for
non-1D plots, and the ValueError whose message formats the offending data
shape together with self.n_frames and self.n_points. -/
inductive TileError
  | notImplemented
  | shapeMismatch (name : String) (shape : List Nat) (nFrames : Option Nat) (nPoints : Nat)
deriving DecidableEq

/-- First pattern of tile_data's match: the shape destructures as
(self.n_frames, self.n_points, *dims) with dims in valid_dims.
A dotted name in a Python pattern is a value pattern, so the two leading
dimensions are compared against the stored frame and entity counts. -/
def tileCase1? (nFrames : Option Nat) (nPoints : Nat) (valid : List (List Nat))
    (shape : List Nat) : Option (Nat × Nat × List Nat) :=
  match shape with
  | f :: p :: ds =>
      if some f = nFrames ∧ p = nPoints ∧ ds ∈ valid then some (f, p, ds) else none
  | _ => none

/-- Second pattern of tile_data's match: the shape destructures as
(self.n_points, *dims) with dims in valid_dims. -/
def tileCase2? (nPoints : Nat) (valid : List (List Nat))
    (shape : List Nat) : Option (List Nat) :=
  match shape with
  | p :: ds => if p = nPoints ∧ ds ∈ valid then some ds else none
  | [] => none

/-- Scatter.tile_data: tile or reshape data_array with shape TxNx(dims),
Nx(dims) or (dims) to shape (T*N)x(dims); the three match cases are tried in
order and a failed guard falls through to the next case. -/
def Scatter.tile_data (nFrames : Option Nat) (nPoints : Nat) (valid : List (List Nat))
    (name : String) (a : NDArray α) : Except TileError (NDArray α × List Nat) :=
  match tileCase1? nFrames nPoints valid a.shape with
  | some (f, p, ds) => .ok (reshape a (f * p :: ds), ds)
  | none =>
    match tileCase2? nPoints valid a.shape with
    | some ds =>
      match nFrames with
      | some t => .ok (np_tile_lead a t, ds)
      | none => .ok (a, ds)
    | none =>
      if a.shape ∈ valid then
        .ok (np_tile_new_axis a (nPoints * (nFrames.getD 1)), a.shape)
      else
        .error (.shapeMismatch name a.shape nFrames nPoints)

/-- Plot.tile_data of the base class: raises NotImplementedError unless
self.dims has length 1; otherwise identical in structure to Scatter.tile_data,
with n_points the product of dims and n_vertices = n_points * (n_frames or 1). -/
def Plot.tile_data (nFrames : Option Nat) (dims : List Nat) (valid : List (List Nat))
    (name : String) (a : NDArray α) : Except TileError (NDArray α × List Nat) :=
  if dims.length ≠ 1 then .error .notImplemented
  else
    let nPoints := dims.prod
    let nVertices := nPoints * (nFrames.getD 1)
    match tileCase1? nFrames nPoints valid a.shape with
    | some (_, _, ds) => .ok (reshape a (nVertices :: ds), ds)
    | none =>
      match tileCase2? nPoints valid a.shape with
      | some ds =>
        match nFrames with
        | some t => .ok (np_tile_lead a t, ds)
        | none => .ok (a, ds)
      | none =>
        if a.shape ∈ valid then
          .ok (np_tile_new_axis a nVertices, a.shape)
        else
          .error (.shapeMismatch name a.shape nFrames nPoints)

/-- Helper for the Python pattern (*dims, last): splits a list into its leading
part and its last element. -/
def splitLast : List Nat → Option (List Nat × Nat)
  | [] => none
  | [a] => some ([], a)
  | a :: b :: rest =>
    match splitLast (b :: rest) with
    | some (d, x) => some (a :: d, x)
    | none => none

/-- Shape semantics of plots_base.get_points_array: from the shape of x (and,
when y and z are given, their shapes) and n_dims, computes the shape of the
returned points array, the frame count (none for a static plot) and the
entity dims tuple; none models the raised ValueError. -/
def get_points_array (xShape : List Nat) (yzShapes : Option (List Nat × List Nat))
    (nDims : Nat) : Option (List Nat × Option Nat × List Nat) :=
  match yzShapes with
  | none =>
    -- only x provided, parse it as (3,), (*dims, 3) or (n_frames, *dims, 3)
    if xShape = [3] then
      some ([1, 1, 3], none, List.replicate nDims 1)
    else
      match splitLast xShape with
      | some (dims, 3) =>
        if dims.length = nDims then
          some (xShape, none, dims)
        else
          match dims with
          | nFrames :: dimsTail =>
            if dimsTail.length = nDims then some (xShape, some nFrames, dimsTail)
            else none
          | [] => none
      | _ => none
  | some (yShape, zShape) =>
    -- parse x,y,z as scalars, as equal shapes of rank n_dims, or as equal
    -- shapes of rank n_dims+1 with the leading dimension the frame count
    if xShape = [] ∧ yShape = [] ∧ zShape = [] then
      some ([1, 3], none, List.replicate nDims 1)
    else if xShape = yShape ∧ yShape = zShape ∧ xShape.length = nDims then
      some (xShape ++ [3], none, xShape)
    else
      match xShape, yShape, zShape with
      | tx :: dx, ty :: dy, tz :: dz =>
        if tx = ty ∧ ty = tz ∧ dx = dy ∧ dy = dz ∧ dx.length = nDims then
          some (tx :: (dx ++ [3]), some tx, dx)
        else none
      | _, _, _ => none

/-- Shape semantics of scatter.get_points_array (the standalone Scatter class):
returns the points shape, the frame count and n_points. -/
def scatter_get_points_array (xShape : List Nat)
    (yzShapes : Option (List Nat × List Nat)) : Option (List Nat × Option Nat × Nat) :=
  match yzShapes with
  | none =>
    match xShape with
    | [3] => some ([1, 3], none, 1)
    | [n, 3] => some ([n, 3], none, n)
    | [t, n, 3] => some ([t, n, 3], some t, n)
    | _ => none
  | some (yShape, zShape) =>
    match xShape, yShape, zShape with
    | [], [], [] => some ([1, 3], none, 1)
    | [n], [m], [k] => if n = m ∧ m = k then some ([n, 3], none, n) else none
    | [t, n], [r, m], [s, k] =>
        if t = r ∧ r = s ∧ n = m ∧ m = k then some ([t, n, 3], some t, n) else none
    | _, _, _ => none

/-- Number of rows of an array of the given shape after numpy reshape(-1, 3). -/
def numRows3 (shape : List Nat) : Nat := shape.prod / 3

/-- surface.get_faces: for each frame j, one quad for every row-major cell
index i below n_points_x*(n_points_y-1) that is not a row's wrap-around cell,
offset by the frame's vertex base j*n_points_x*n_points_y. -/
def get_faces (nPointsX nPointsY nFrames : Nat) : List (List (List Nat)) :=
  (List.range nFrames).map fun j =>
    ((List.range (nPointsX * (nPointsY - 1))).filter
        (fun i => (i + 1) % nPointsX != 0)).map
      (fun i =>
        [j * nPointsX * nPointsY + i,
         j * nPointsX * nPointsY + (i + 1),
         j * nPointsX * nPointsY + (i + nPointsX + 1),
         j * nPointsX * nPointsY + (i + nPointsX)])

/-- State of a plots_base.Plot instance relevant to the points property: the
stored points shape and the vertex count of the backend mesh (0 while the mesh
is still empty, as for a freshly created bpy mesh). -/
structure PlotState where
  pointsShape : Option (List Nat)
  meshVertices : Nat
deriving DecidableEq

/-- Errors of the points path of plots_base.Plot. The setter's ValueError
formats self.points.shape twice (the assignment happens only after the check,
so both f-string fields show the stored shape), hence the repeated payload. -/
inductive PlotError
  | cantChangePoints (was got_shown : List Nat)
  | cantChangeVertices (meshVertices : Nat)
deriving DecidableEq

/-- plots_base.Plot.update_points: build the mesh from the points when it is
still empty, push coordinates when the vertex count is unchanged, raise
otherwise. -/
def Plot.update_points (s : PlotState) : Except PlotError PlotState :=
  match s.pointsShape with
  | none => .error (.cantChangeVertices s.meshVertices)
  | some shape =>
    if s.meshVertices = 0 then .ok { s with meshVertices := numRows3 shape }
    else if s.meshVertices = numRows3 shape then .ok s
    else .error (.cantChangeVertices s.meshVertices)

/-- plots_base.Plot points setter: raises before any mutation when the new
shape differs from the stored one, otherwise stores and pushes. -/
def Plot.set_points (s : PlotState) (newShape : List Nat) : Except PlotError PlotState :=
  match s.pointsShape with
  | some old =>
    if newShape ≠ old then .error (.cantChangePoints old old)
    else Plot.update_points { s with pointsShape := some newShape }
  | none => Plot.update_points { s with pointsShape := some newShape }

/-- State of a scatter.Scatter instance relevant to the points property
(meshVertices is none while self.mesh is None). -/
structure ScatterState where
  pointsShape : Option (List Nat)
  meshVertices : Option Nat
deriving DecidableEq

/-- Backend push performed by Scatter.update_points after the setter has
already stored the new points: mesh creation from the point rows, or a
foreach_set of coordinates, which the backend accepts only when the pushed row
count matches the mesh's vertex count. -/
inductive ScatterPush
  | fromPydata (nRows : Nat)
  | foreachSetCo (nRows : Nat) (meshVertices : Nat)
deriving DecidableEq

/-- scatter.Scatter points setter: stores the new points unconditionally (no
shape check), then update_points pushes to the backend. -/
def Scatter.set_points (s : ScatterState) (newShape : List Nat) : ScatterState × ScatterPush :=
  let stored : ScatterState := { s with pointsShape := some newShape }
  match s.meshVertices with
  | none => ({ stored with meshVertices := some (numRows3 newShape) },
             .fromPydata (numRows3 newShape))
  | some mv => (stored, .foreachSetCo (numRows3 newShape) mv)

/-- Backend mutations performed during Plot/Arrows construction, in order. -/
inductive BackendOp
  | newMesh
  | newObject
  | newModifier
  | meshFromPydata
  | setFrameIndexAttr
  | setVertexColors
  | newColorMaterial
  | buildArrowGraph
  | setModifierSocket
  | setArrowsAttr
  | meshUpdate
deriving DecidableEq

inductive ArrowsError
  | pointsShapeError (xShape : List Nat)
  | colorError (e : TileError)
  | bothEndAndVector
  | arrowsTileError (e : TileError)
deriving DecidableEq

/-- An array of the given shape whose entries are irrelevant (only the shape
drives tile_data's control flow). -/
def mkShapeArr (shape : List Nat) : NDArray Unit :=
  ⟨shape, List.replicate shape.prod ()⟩

/-- Continuation of Arrows.__init__ after the base Plot constructor: add_arrows
builds the arrow node graph and the color socket is set, and only then is the
mutual exclusion of the end and vector arguments checked; afterwards the arrows
attribute is pushed (the arrows array takes the shape of the difference of the
end and start arrays when end is given, of the vector otherwise) and the base
object's data updated. -/
def Arrows.rest_ops (ops : List BackendOp) (nFrames : Option Nat) (dims : List Nat)
    (vecShape endShape : Option (List Nat)) : List BackendOp × Except ArrowsError Unit :=
  let ops2 := ops ++ [BackendOp.buildArrowGraph, BackendOp.setModifierSocket]
  if endShape.isSome ∧ vecShape.isSome then (ops2, .error .bothEndAndVector)
  else
    match (if endShape.isSome then endShape else vecShape) with
    | some sh =>
      match Plot.tile_data nFrames dims [[3], []] "marker scale" (mkShapeArr sh) with
      | .error e => (ops2, .error (.arrowsTileError e))
      | .ok _ => (ops2 ++ [BackendOp.setArrowsAttr, BackendOp.meshUpdate], .ok ())
    | none => (ops2 ++ [BackendOp.meshUpdate], .ok ())

/-- Arrows.__init__ modelled as the ordered list of backend mutations together
with the result: the base Plot constructor creates the mesh, the base object
and the geometry-nodes modifier before parsing the coordinates, then stores
the points (mesh.from_pydata, plus the frame-index attribute when animated)
and the color, and add_arrows builds the node graph before the mutual
exclusion check of the end and vector arguments runs. -/
def Arrows.init_ops (α : Type) (xShape : List Nat) (color : Option (NDArray α))
    (vecShape endShape : Option (List Nat)) : List BackendOp × Except ArrowsError Unit :=
  let ops0 := [BackendOp.newMesh, BackendOp.newObject, BackendOp.newModifier]
  match get_points_array xShape none 1 with
  | none => (ops0, .error (.pointsShapeError xShape))
  | some (_, nFrames, dims) =>
    let ops1 := ops0 ++ [BackendOp.meshFromPydata] ++
      (match nFrames with | some _ => [BackendOp.setFrameIndexAttr] | none => []) ++
      [BackendOp.meshUpdate]
    match color with
    | some c =>
      match Plot.tile_data nFrames dims [[3], [4]] "color" c with
      | .error e => (ops1, .error (.colorError e))
      | .ok _ =>
        Arrows.rest_ops (ops1 ++ [BackendOp.setVertexColors, BackendOp.newColorMaterial])
          nFrames dims vecShape endShape
    | none => Arrows.rest_ops ops1 nFrames dims vecShape endShape

/-- Decimal digit characters, as produced by Python string formatting. -/
def digitChar : Nat → Char
  | 0 => '0'
  | 1 => '1'
  | 2 => '2'
  | 3 => '3'
  | 4 => '4'
  | 5 => '5'
  | 6 => '6'
  | 7 => '7'
  | 8 => '8'
  | 9 => '9'
  | _ => '*'

/-- Big-endian decimal digits of n; the fuel argument makes the recursion on
n / 10 structural. -/
def toDecAux (fuel n : Nat) : List Char :=
  match fuel with
  | 0 => []
  | fuel + 1 =>
    if n < 10 then [digitChar n]
    else toDecAux fuel (n / 10) ++ [digitChar (n % 10)]

/-- Decimal rendering of a natural number as a character list, matching Python
f-string formatting of a nonnegative integer. -/
def natDec (n : Nat) : List Char := toDecAux (n + 1) n

/-- blender_utils.socket_input_key: the backend's positional internal key,
Socket_i on blender 4+ and Input_i below. -/
def socket_input_key (v4 : Bool) (i : Nat) : String :=
  ⟨(if v4 then "Socket_" else "Input_").data ++ natDec i⟩

/-- Python dict insert-or-overwrite semantics for the input_sockets registry,
keyed by the user-provided socket name. -/
def dictInsert (d : List (String × String)) (k v : String) : List (String × String) :=
  if d.any (fun p => p.1 == k) then
    d.map (fun p => if p.1 == k then (p.1, v) else p)
  else d ++ [(k, v)]

/-- NodeLinker.new_input_socket: creates the backend socket, then records in
the registry the mapping from the caller-chosen name to the internal key
socket_input_key(len(input_sockets) + 2), where the registry length is read
before the insertion. Returns the new registry and the key just assigned. -/
def new_input_socket (v4 : Bool) (d : List (String × String)) (name : String) :
    List (String × String) × String :=
  let key := socket_input_key v4 (d.length + 2)
  (dictInsert d name key, key)

/-- One step of a sequence of new_input_socket declarations: thread the
registry and record the assigned key. -/
def declare_step (v4 : Bool) (acc : List (String × String) × List String)
    (n : String) : List (String × String) × List String :=
  ((new_input_socket v4 acc.1 n).1, acc.2 ++ [(new_input_socket v4 acc.1 n).2])

/-- A whole sequence of new_input_socket declarations on one fresh NodeLinker:
the final registry together with the internal keys in declaration order. -/
def declare_sequence (v4 : Bool) (names : List String) :
    List (String × String) × List String :=
  names.foldl (declare_step v4) ([], [])

/-- The intended result of a duplicate-free declaration sequence starting from
a registry of the given size: each name paired with the key derived from its
position. -/
def declare_spec (v4 : Bool) (base : Nat) : List String → List (String × String) × List String
  | [] => ([], [])
  | n :: rest =>
    ((n, socket_input_key v4 (base + 2)) :: (declare_spec v4 (base + 1) rest).1,
     socket_input_key v4 (base + 2) :: (declare_spec v4 (base + 1) rest).2)

/-- ASCII decimal digit test, as Python str.isdigit on such keys. -/
def isDigitChar (c : Char) : Bool := 48 ≤ c.toNat && c.toNat ≤ 57

/-- Python str.split on the underscore separator. -/
def splitUnderscore : List Char → List (List Char)
  | [] => [[]]
  | c :: rest =>
    match splitUnderscore rest with
    | [] => [[c]]
    | w :: ws => if c = '_' then [] :: w :: ws else (c :: w) :: ws

/-- Python str.capitalize on the leading character: lowercase ASCII letters
are uppercased. -/
def charUpper (c : Char) : Char :=
  if 97 ≤ c.toNat ∧ c.toNat ≤ 122 then Char.ofNat (c.toNat - 32) else c

/-- Python str.capitalize lowercases every character after the first. -/
def charLower (c : Char) : Char :=
  if 65 ≤ c.toNat ∧ c.toNat ≤ 90 then Char.ofNat (c.toNat + 32) else c

def capitalizeWord : List Char → List Char
  | [] => []
  | c :: cs => charUpper c :: cs.map charLower

def joinSpace : List (List Char) → List Char
  | [] => []
  | [w] => w
  | w :: ws => w ++ ' ' :: joinSpace ws

/-- blender_utils.python_arg_to_blender_key: radius -> Radius,
instance_index -> Instance Index. -/
def python_arg_to_blender_key (arg : String) : String :=
  ⟨joinSpace ((splitUnderscore arg.data).map capitalizeWord)⟩

def digitsToNat (l : List Char) : Nat :=
  l.foldl (fun acc c => acc * 10 + (c.toNat - 48)) 0

/-- A key into node.inputs: either a positional integer index (from an
input_i kwarg) or a socket name. -/
inductive BlenderKey
  | idx (i : Nat)
  | socketName (s : String)
deriving DecidableEq

/-- The key translation at the top of NodeLinker.new_node's kwarg loop:
input_i with decimal i becomes the integer index i, every other key goes
through python_arg_to_blender_key. -/
def toBlenderKey (key : String) : BlenderKey :=
  match splitUnderscore key.data with
  | [w1, w2] =>
    if w1 = "input".data ∧ w2 ≠ [] ∧ w2.all isDigitChar then .idx (digitsToNat w2)
    else .socketName (python_arg_to_blender_key key)
  | _ => .socketName (python_arg_to_blender_key key)

/-- The aspects of a bpy node visible to new_node's kwarg loop: its input
sockets in order (name and whether the socket carries a default_value), and
the names of its settable Python attributes. -/
structure NodeModel where
  inputs : List (String × Bool)
  attrs : List String
deriving DecidableEq

/-- A non-None kwarg value: a NodeSocket handle (source node and socket) or a
plain constant. -/
inductive KwargValue
  | socket (srcNode srcSocket : String)
  | const (v : Int)
deriving DecidableEq

/-- Mutations a processed kwarg performs on the graph or the node. -/
inductive NodeEffect
  | link (srcNode srcSocket : String) (dst : BlenderKey)
  | setDefault (dst : BlenderKey) (v : Int)
  | setAttr (attr : String) (v : KwargValue)
deriving DecidableEq

/-- Failures of one kwarg: the ValueError of new_node for a key that names
neither an input nor an attribute, and the backend KeyError/IndexError raised
by node.inputs lookup with a bad name or out-of-range index. -/
inductive NodeError
  | missingSocket (key : String) (bk : BlenderKey)
  | badIndex (i : Nat)
  | badName (s : String)
deriving DecidableEq

/-- Processing of one key/value binding in NodeLinker.new_node: a None value
is skipped entirely by the loop's guard; otherwise socket values are linked,
constants become socket defaults when the key resolves to an input with a
default_value, attribute assignment is the fallback, and a key naming neither
raises the ValueError. -/
def processKwarg (node : NodeModel) (key : String) (value : Option KwargValue) :
    Except NodeError (List NodeEffect) :=
  match value with
  | none => .ok []
  | some v =>
    let bk := toBlenderKey key
    match v with
    | .socket sn ss =>
      match bk with
      | .idx i =>
        if i < node.inputs.length then .ok [.link sn ss bk] else .error (.badIndex i)
      | .socketName nm =>
        if node.inputs.any (fun p => p.1 == nm) then .ok [.link sn ss bk]
        else .error (.badName nm)
    | .const c =>
      match bk with
      | .idx i =>
        if h : i < node.inputs.length then
          if (node.inputs.get ⟨i, h⟩).2 then .ok [.setDefault bk c]
          else if key ∈ node.attrs then .ok [.setAttr key v]
          else .error (.missingSocket key bk)
        else .error (.badIndex i)
      | .socketName nm =>
        match node.inputs.find? (fun p => p.1 == nm) with
        | some entry =>
          if entry.2 then .ok [.setDefault bk c]
          else if key ∈ node.attrs then .ok [.setAttr key v]
          else .error (.missingSocket key bk)
        | none =>
          if key ∈ node.attrs then .ok [.setAttr key v]
          else .error (.missingSocket key bk)

/-- The kwarg loop of NodeLinker.new_node over the bindings in order,
accumulating the performed effects and stopping at the first error. -/
def processKwargs (node : NodeModel) : List (String × Option KwargValue) →
    Except NodeError (List NodeEffect)
  | [] => .ok []
  | (k, v) :: rest =>
    match processKwarg node k v with
    | .error e => .error e
    | .ok es =>
      match processKwargs node rest with
      | .error e => .error e
      | .ok es2 => .ok (es ++ es2)

/-- Errors raised by set_vertex_colors: the ValueError for a trailing size
other than 3 or 4, and the ValueError for a row count different from the
mesh's vertex count. -/
inductive ColorError
  | invalidShape (shape : List Nat)
  | countMismatch (meshVertices rows : Nat)
deriving DecidableEq

/-- blender_utils.set_vertex_colors (scatter.py contains an identical copy up
to the attribute constant): a color array of shape (n, cols) modelled as its
rows; cols = 3 appends alpha 1.0 to every row, cols = 4 passes through, any
other cols raises, then a row count different from the mesh's vertex count
raises — in both error cases before the marker_color attribute is created or
written. The ok value is the row list pushed via foreach_set. -/
def set_vertex_colors (meshVertices : Nat) (cols : Nat) (color : List (List ℚ)) :
    Except ColorError (List (List ℚ)) :=
  match (if cols = 3 then .ok (color.map (fun row => row ++ [1]))
         else if cols ≠ 4 then Except.error (ColorError.invalidShape [color.length, cols])
         else .ok color : Except ColorError (List (List ℚ))) with
  | .error e => .error e
  | .ok c2 =>
    if meshVertices ≠ c2.length then .error (.countMismatch meshVertices c2.length)
    else .ok c2

example :
    Scatter.tile_data (some 4) 3 [[3], [4]] "color" (⟨[3, 3], List.range 9⟩ : NDArray Nat)
      = .ok (⟨[12, 3], (List.replicate 4 (List.range 9)).flatten⟩, [3]) := by decide

example :
    Scatter.tile_data (some 3) 3 [[3], []] "arrows" (⟨[3, 3], List.range 9⟩ : NDArray Nat)
      = .ok (⟨[9], List.range 9⟩, []) := by decide

example :
    Scatter.tile_data (some 2) 2 [[3]] "color" (⟨[4, 3], List.range 12⟩ : NDArray Nat)
      = .error (.shapeMismatch "color" [4, 3] (some 2) 2) := by decide

example : get_points_array [3] none 2 = some ([1, 1, 3], none, [1, 1]) := by decide
example : get_points_array [5, 3] none 1 = some ([5, 3], none, [5]) := by decide
example : get_points_array [4, 5, 3] none 1 = some ([4, 5, 3], some 4, [5]) := by decide
example : get_points_array [4, 5, 3] none 2 = some ([4, 5, 3], none, [4, 5]) := by decide
example : get_points_array [2, 4, 5, 3] none 2 = some ([2, 4, 5, 3], some 2, [4, 5]) := by decide
example : get_points_array [4, 5] none 1 = none := by decide
example : get_points_array [] (some ([], [])) 1 = some ([1, 3], none, [1]) := by decide
example : get_points_array [7] (some ([7], [7])) 1 = some ([7, 3], none, [7]) := by decide
example : get_points_array [2, 7] (some ([2, 7], [2, 7])) 1
    = some ([2, 7, 3], some 2, [7]) := by decide
example : get_points_array [2, 7] (some ([2, 6], [2, 7])) 1 = none := by decide
example : scatter_get_points_array [3] none = some ([1, 3], none, 1) := by decide
example : scatter_get_points_array [3, 3] none = some ([3, 3], none, 3) := by decide
example : scatter_get_points_array [4, 3, 3] none = some ([4, 3, 3], some 4, 3) := by decide
example : scatter_get_points_array [] (some ([], [])) = some ([1, 3], none, 1) := by decide
example : scatter_get_points_array [5] (some ([5], [4])) = none := by decide

theorem splitLast_eq : ∀ {l d : List Nat} {a : Nat},
    splitLast l = some (d, a) → l = d ++ [a]
  | [], _, _, h => by simp [splitLast] at h
  | [x], d, a, h => by
      simp only [splitLast, Option.some.injEq, Prod.mk.injEq] at h
      simp [← h.1, ← h.2]
  | x :: y :: rest, d, a, h => by
      simp only [splitLast] at h
      cases hrec : splitLast (y :: rest) with
      | none => rw [hrec] at h; exact absurd h (by simp)
      | some p =>
        rw [hrec] at h
        simp only [Option.some.injEq, Prod.mk.injEq] at h
        have := splitLast_eq (l := y :: rest) (d := p.1) (a := p.2) (by rw [hrec])
        rw [← h.1, ← h.2]
        simpa using this

theorem numRows3_append3 (l : List Nat) : numRows3 (l ++ [3]) = l.prod := by
  show (l ++ [3]).prod / 3 = l.prod
  rw [List.prod_append, List.prod_cons, List.prod_nil, mul_one,
    Nat.mul_div_cancel _ (by norm_num : (0:ℕ) < 3)]

theorem numRows3_cons_append3 (a : Nat) (l : List Nat) :
    numRows3 (a :: (l ++ [3])) = a * l.prod := by
  have h : a :: (l ++ [3]) = (a :: l) ++ [3] := rfl
  rw [h, numRows3_append3, List.prod_cons]

/-- C1: for every coordinate input accepted by the shape parsers (both the
n_dims-generic plots_base.get_points_array and the scatter.get_points_array
one), the product of the entity dims times (the frame count, or 1 when it is
None) equals the number of rows of the points array reshaped to (-1, 3); in
particular a bare 3-vector x or a scalar triple (x, y, z) yields entity
count 1 and frame count None. -/
theorem C1_parse_counts :
    (∀ xShape yz nDims pShape nFrames dims,
      get_points_array xShape yz nDims = some (pShape, nFrames, dims) →
      dims.prod * nFrames.getD 1 = numRows3 pShape) ∧
    (∀ xShape yz pShape nFrames nPoints,
      scatter_get_points_array xShape yz = some (pShape, nFrames, nPoints) →
      nPoints * nFrames.getD 1 = numRows3 pShape) ∧
    (∀ nDims, get_points_array [3] none nDims = some ([1, 1, 3], none, List.replicate nDims 1)
      ∧ (List.replicate nDims 1).prod = 1) ∧
    (∀ nDims, get_points_array [] (some ([], [])) nDims
      = some ([1, 3], none, List.replicate nDims 1)
      ∧ (List.replicate nDims 1).prod = 1) ∧
    scatter_get_points_array [3] none = some ([1, 3], none, 1) ∧
    scatter_get_points_array [] (some ([], [])) = some ([1, 3], none, 1) := by
  refine ⟨?_, ?_, ?_, ?_, by decide, by decide⟩
  · intro xShape yz nDims pShape nFrames dims h
    cases yz with
    | none =>
      simp only [get_points_array] at h
      split at h
      · simp only [Option.some.injEq, Prod.mk.injEq] at h
        obtain ⟨h1, h2, h3⟩ := h
        subst h1; subst h2; subst h3
        simp [numRows3, List.prod_replicate]
      · split at h
        next d hd3 =>
          have hx : xShape = d ++ [3] := splitLast_eq hd3
          split at h
          · simp only [Option.some.injEq, Prod.mk.injEq] at h
            obtain ⟨h1, h2, h3⟩ := h
            subst h1; subst h2; subst h3
            simp [hx, numRows3_append3]
          · split at h
            next nF dTail =>
              split at h
              · simp only [Option.some.injEq, Prod.mk.injEq] at h
                obtain ⟨h1, h2, h3⟩ := h
                subst h1; subst h2; subst h3
                rw [hx, numRows3_append3]
                simp [List.prod_cons, Nat.mul_comm]
              · exact absurd h (by simp)
            next => exact absurd h (by simp)
        next => exact absurd h (by simp)
    | some p =>
      obtain ⟨ys, zs⟩ := p
      simp only [get_points_array] at h
      split at h
      · simp only [Option.some.injEq, Prod.mk.injEq] at h
        obtain ⟨h1, h2, h3⟩ := h
        subst h1; subst h2; subst h3
        simp [numRows3, List.prod_replicate]
      · split at h
        · simp only [Option.some.injEq, Prod.mk.injEq] at h
          obtain ⟨h1, h2, h3⟩ := h
          subst h1; subst h2; subst h3
          simp [numRows3_append3]
        · split at h
          · split at h
            · simp only [Option.some.injEq, Prod.mk.injEq] at h
              obtain ⟨h1, h2, h3⟩ := h
              subst h1; subst h2; subst h3
              rw [numRows3_cons_append3]
              simp [Nat.mul_comm]
            · exact absurd h (by simp)
          · exact absurd h (by simp)
  · intro xShape yz pShape nFrames nPoints h
    cases yz with
    | none =>
      simp only [scatter_get_points_array] at h
      split at h
      · simp only [Option.some.injEq, Prod.mk.injEq] at h
        obtain ⟨h1, h2, h3⟩ := h
        subst h1; subst h2; subst h3; decide
      · simp only [Option.some.injEq, Prod.mk.injEq] at h
        obtain ⟨h1, h2, h3⟩ := h
        subst h1; subst h2; subst h3
        simp [numRows3, Nat.mul_div_cancel _ (by norm_num : (0:ℕ) < 3)]
      · simp only [Option.some.injEq, Prod.mk.injEq] at h
        obtain ⟨h1, h2, h3⟩ := h
        subst h1; subst h2; subst h3
        show _ * _ = _ / 3
        simp only [List.prod_cons, List.prod_nil, Option.getD]
        rw [mul_one, ← Nat.mul_assoc, Nat.mul_div_cancel _ (by norm_num : (0:ℕ) < 3)]
        exact Nat.mul_comm _ _
      · exact absurd h (by simp)
    | some p =>
      obtain ⟨ys, zs⟩ := p
      simp only [scatter_get_points_array] at h
      split at h
      · simp only [Option.some.injEq, Prod.mk.injEq] at h
        obtain ⟨h1, h2, h3⟩ := h
        subst h1; subst h2; subst h3; decide
      · split at h
        · simp only [Option.some.injEq, Prod.mk.injEq] at h
          obtain ⟨h1, h2, h3⟩ := h
          subst h1; subst h2; subst h3
          simp [numRows3, Nat.mul_div_cancel _ (by norm_num : (0:ℕ) < 3)]
        · exact absurd h (by simp)
      · split at h
        · simp only [Option.some.injEq, Prod.mk.injEq] at h
          obtain ⟨h1, h2, h3⟩ := h
          subst h1; subst h2; subst h3
          show _ * _ = _ / 3
          simp only [List.prod_cons, List.prod_nil, Option.getD]
          rw [mul_one, ← Nat.mul_assoc, Nat.mul_div_cancel _ (by norm_num : (0:ℕ) < 3)]
          exact Nat.mul_comm _ _
        · exact absurd h (by simp)
      · exact absurd h (by simp)
  · intro nDims
    refine ⟨?_, by simp [List.prod_replicate]⟩
    simp [get_points_array]
  · intro nDims
    refine ⟨?_, by simp [List.prod_replicate]⟩
    simp [get_points_array]

theorem C1_parse_counts_witness :
    [5].prod * ((none : Option Nat).getD 1) = numRows3 [5, 3] ∧
    3 * ((some 4 : Option Nat).getD 1) = numRows3 [4, 3, 3] :=
  ⟨C1_parse_counts.1 [5, 3] none 1 [5, 3] none [5] (by decide),
   C1_parse_counts.2.1 [4, 3, 3] none [4, 3, 3] (some 4) 3 (by decide)⟩

theorem tileCase1?_eq_some {nFrames : Option Nat} {nPoints : Nat} {valid : List (List Nat)}
    {shape : List Nat} {r : Nat × Nat × List Nat}
    (h : tileCase1? nFrames nPoints valid shape = some r) :
    shape = r.1 :: r.2.1 :: r.2.2 ∧ nFrames = some r.1 ∧ r.2.1 = nPoints ∧ r.2.2 ∈ valid := by
  cases shape with
  | nil => simp [tileCase1?] at h
  | cons f rest =>
    cases rest with
    | nil => simp [tileCase1?] at h
    | cons p ds =>
      simp only [tileCase1?] at h
      split at h
      next hcond =>
        cases h
        exact ⟨rfl, hcond.1.symm, hcond.2.1, hcond.2.2⟩
      next => exact absurd h (by simp)

theorem tileCase2?_of_shape {nPoints : Nat} {valid : List (List Nat)} {shape : List Nat}
    {t : List Nat} (hshape : shape = nPoints :: t) (ht : t ∈ valid) :
    tileCase2? nPoints valid shape = some t := by
  subst hshape
  simp [tileCase2?, ht]

/-- With a one-dimensional dims tuple, the base-class tile_data agrees with the
Scatter one (the base class reshapes case 1 to n_vertices = n_points*n_frames,
the Scatter class to n_frames*n_points). -/
theorem Plot.tile_data_eq_scatter (nFrames : Option Nat) (n : Nat) (valid : List (List Nat))
    (name : String) (a : NDArray α) :
    Plot.tile_data nFrames [n] valid name a = Scatter.tile_data nFrames n valid name a := by
  unfold Plot.tile_data Scatter.tile_data
  simp only [List.length_cons, List.length_nil, List.prod_cons, List.prod_nil, mul_one, ne_eq]
  norm_num
  cases hc1 : tileCase1? nFrames n valid a.shape with
  | none => rfl
  | some r =>
    obtain ⟨hsh, hf, hp, hv⟩ := tileCase1?_eq_some hc1
    obtain ⟨f, p, ds⟩ := r
    simp only at hsh hf hp hv
    subst hp
    rw [hf]
    simp [Nat.mul_comm]

theorem Scatter.tile_data_case2 (nFrames : Option Nat) (nPoints : Nat) (valid : List (List Nat))
    (name : String) (a : NDArray α) (t : List Nat)
    (hshape : a.shape = nPoints :: t) (ht : t ∈ valid)
    (hc1 : tileCase1? nFrames nPoints valid a.shape = none) :
    Scatter.tile_data nFrames nPoints valid name a =
      match nFrames with
      | some T => .ok (np_tile_lead a T, t)
      | none => .ok (a, t) := by
  unfold Scatter.tile_data
  rw [hc1, tileCase2?_of_shape hshape ht]
  cases nFrames <;> rfl

/-- C2 counterexample: with 3 frames, 3 entities and accepted trailing shapes
from Arrows.update_arrows, an attribute array of shape (3, 3) — which is
(entity_count, trailing) with trailing (3,) accepted — is captured by the
fully-specified first match case and reshaped to (9,), not tiled per frame to
(9, 3) as the claim requires. -/
theorem C2_counterexample :
    ((⟨[3, 3], List.range 9⟩ : NDArray Nat).shape = 3 :: [3] ∧ [3] ∈ [[3], []]) ∧
    Scatter.tile_data (some 3) 3 [[3], []] "marker scale" (⟨[3, 3], List.range 9⟩ : NDArray Nat)
      = .ok (⟨[9], List.range 9⟩, ([] : List Nat)) ∧
    Plot.tile_data (some 3) [3] [[3], []] "marker scale" (⟨[3, 3], List.range 9⟩ : NDArray Nat)
      = .ok (⟨[9], List.range 9⟩, ([] : List Nat)) ∧
    (⟨[9], List.range 9⟩ : NDArray Nat)
      ≠ ⟨3 * 3 :: [3], (List.replicate 3 (List.range 9)).flatten⟩ := by decide

/-- C2 (amended): for every attribute array of shape (entity_count, *trailing)
with trailing accepted, provided the shape is not also captured by the
fully-specified first match case (frame_count, entity_count, *trailing2) which
takes precedence, tile_data with a set frame count returns the per-entity block
repeated frame_count times concatenated along the leading axis, and with frame
count None returns the array unchanged; in particular with frame_count 4 and
entity_count 3 a color input of shape (3, 3) broadcasts to shape (12, 3) with
each consecutive 3-row (9-element) block identical to the input. -/
theorem C2_tile_per_entity :
    (∀ (α : Type) (nFrames : Option Nat) (nPoints : Nat) (valid : List (List Nat))
      (name : String) (a : NDArray α) (t : List Nat),
      a.shape = nPoints :: t → t ∈ valid →
      tileCase1? nFrames nPoints valid a.shape = none →
      (∀ T, nFrames = some T →
        Scatter.tile_data nFrames nPoints valid name a
          = .ok (⟨T * nPoints :: t, (List.replicate T a.data).flatten⟩, t) ∧
        Plot.tile_data nFrames [nPoints] valid name a
          = .ok (⟨T * nPoints :: t, (List.replicate T a.data).flatten⟩, t)) ∧
      (nFrames = none →
        Scatter.tile_data nFrames nPoints valid name a = .ok (a, t) ∧
        Plot.tile_data nFrames [nPoints] valid name a = .ok (a, t))) ∧
    Scatter.tile_data (some 4) 3 [[3], [4]] "color" (⟨[3, 3], List.range 9⟩ : NDArray Nat)
      = .ok (⟨[12, 3], (List.replicate 4 (List.range 9)).flatten⟩, [3]) ∧
    (∀ k, k < 4 →
      (((List.replicate 4 (List.range 9)).flatten).drop (9 * k)).take 9 = List.range 9) := by
  refine ⟨?_, by decide, by decide⟩
  intro α nFrames nPoints valid name a t hshape ht hc1
  have hmain := Scatter.tile_data_case2 nFrames nPoints valid name a t hshape ht hc1
  have hplot := Plot.tile_data_eq_scatter nFrames nPoints valid name a
  constructor
  · intro T hT
    subst hT
    rw [hplot, hmain]
    constructor <;> · simp [np_tile_lead, hshape]
  · intro hT
    subst hT
    rw [hplot, hmain]
    exact ⟨rfl, rfl⟩

theorem C2_tile_per_entity_witness :
    Scatter.tile_data (some 4) 3 [[3], [4]] "color" (⟨[3, 3], List.range 9⟩ : NDArray Nat)
      = .ok (⟨4 * 3 :: [3], (List.replicate 4 (List.range 9)).flatten⟩, [3]) ∧
    Scatter.tile_data none 3 [[3], [4]] "color" (⟨[3, 3], List.range 9⟩ : NDArray Nat)
      = .ok (⟨[3, 3], List.range 9⟩, [3]) :=
  ⟨((C2_tile_per_entity.1 Nat (some 4) 3 [[3], [4]] "color" ⟨[3, 3], List.range 9⟩ [3]
      rfl (by decide) (by decide)).1 4 rfl).1,
   ((C2_tile_per_entity.1 Nat none 3 [[3], [4]] "color" ⟨[3, 3], List.range 9⟩ [3]
      rfl (by decide) (by decide)).2 rfl).1⟩

theorem tileCase1?_none_frames (nPoints : Nat) (valid : List (List Nat)) (shape : List Nat) :
    tileCase1? none nPoints valid shape = none := by
  cases shape with
  | nil => rfl
  | cons f rest =>
    cases rest with
    | nil => rfl
    | cons p ds => simp [tileCase1?]

/-- C6 counterexample: with 2 frames and 2 entities, a fully specified color
array of shape (2, 2, 3) broadcasts to the fully-expanded shape (4, 3), but
feeding that output through tile_data again with the same accepted shapes
raises the shape-mismatch ValueError instead of returning it unchanged. -/
theorem C6_counterexample :
    Scatter.tile_data (some 2) 2 [[3]] "color" (⟨[2, 2, 3], List.range 12⟩ : NDArray Nat)
      = .ok (⟨[4, 3], List.range 12⟩, [3]) ∧
    Scatter.tile_data (some 2) 2 [[3]] "color" (⟨[4, 3], List.range 12⟩ : NDArray Nat)
      = .error (.shapeMismatch "color" [4, 3] (some 2) 2) ∧
    Plot.tile_data (some 2) [2] [[3]] "color" (⟨[4, 3], List.range 12⟩ : NDArray Nat)
      = .error (.shapeMismatch "color" [4, 3] (some 2) 2) := by decide

/-- C6 (amended): broadcasting is idempotent for static plots: when the frame
count is None, feeding the output of tile_data through tile_data a second time
with the same accepted shapes succeeds and returns the same array (for an
animated plot the fully-expanded output of shape (frames*entities, *trailing)
in general matches no accepted form and re-broadcasting fails, as the
counterexample shows). -/
theorem C6_idempotent_static :
    ∀ (α : Type) (nPoints : Nat) (valid : List (List Nat)) (name name2 : String)
      (a out : NDArray α) (ds : List Nat),
      (Scatter.tile_data none nPoints valid name a = .ok (out, ds) →
        Scatter.tile_data none nPoints valid name2 out = .ok (out, ds)) ∧
      (Plot.tile_data none [nPoints] valid name a = .ok (out, ds) →
        Plot.tile_data none [nPoints] valid name2 out = .ok (out, ds)) := by
  intro α nPoints valid name name2 a out ds
  have hmain : Scatter.tile_data none nPoints valid name a = .ok (out, ds) →
      Scatter.tile_data none nPoints valid name2 out = .ok (out, ds) := by
    intro h
    unfold Scatter.tile_data at h ⊢
    rw [tileCase1?_none_frames] at h ⊢
    cases h2 : tileCase2? nPoints valid a.shape with
    | some ds0 =>
      rw [h2] at h
      have h' : (Except.ok (a, ds0) : Except TileError (NDArray α × List Nat))
          = .ok (out, ds) := h
      have hp : a = out ∧ ds0 = ds := by
        injection h' with h''
        exact ⟨congrArg Prod.fst h'', congrArg Prod.snd h''⟩
      obtain ⟨rfl, rfl⟩ := hp
      rw [h2]
    | none =>
      rw [h2] at h
      have h' : (if a.shape ∈ valid then
            Except.ok (np_tile_new_axis a (nPoints * (Option.getD none 1)), a.shape)
          else Except.error (TileError.shapeMismatch name a.shape none nPoints))
          = .ok (out, ds) := h
      split at h'
      next hvalid =>
        have hp : np_tile_new_axis a (nPoints * (Option.getD none 1)) = out ∧ a.shape = ds := by
          injection h' with h''
          exact ⟨congrArg Prod.fst h'', congrArg Prod.snd h''⟩
        obtain ⟨rfl, rfl⟩ := hp
        have hsh : (np_tile_new_axis a (nPoints * (Option.getD none 1))).shape
            = nPoints :: a.shape := by
          simp [np_tile_new_axis]
        rw [tileCase2?_of_shape hsh hvalid]
      next => exact absurd h' (by simp)
  refine ⟨hmain, ?_⟩
  intro h
  rw [Plot.tile_data_eq_scatter] at h
  rw [Plot.tile_data_eq_scatter]
  exact hmain h

theorem C6_idempotent_static_witness :
    Scatter.tile_data none 3 [[3]] "c2"
        (⟨[3, 3], [0, 1, 2, 0, 1, 2, 0, 1, 2]⟩ : NDArray Nat)
      = .ok (⟨[3, 3], [0, 1, 2, 0, 1, 2, 0, 1, 2]⟩, [3]) :=
  (C6_idempotent_static Nat 3 [[3]] "c1" "c2" ⟨[3], [0, 1, 2]⟩
    ⟨[3, 3], [0, 1, 2, 0, 1, 2, 0, 1, 2]⟩ [3]).1 (by decide)

/-- C8: for every attribute array whose shape matches none of the three
accepted broadcasting forms, tile_data raises the ValueError carrying the
offending shape and the fixed frame and entity counts; in particular an array
whose entity axis is 4 against a locked entity count of 5 (with the accepted
color trailing shapes) always fails that way. -/
theorem C8_shape_mismatch :
    (∀ (α : Type) (nFrames : Option Nat) (nPoints : Nat) (valid : List (List Nat))
      (name : String) (a : NDArray α),
      tileCase1? nFrames nPoints valid a.shape = none →
      tileCase2? nPoints valid a.shape = none →
      a.shape ∉ valid →
      Scatter.tile_data nFrames nPoints valid name a
        = .error (.shapeMismatch name a.shape nFrames nPoints) ∧
      Plot.tile_data nFrames [nPoints] valid name a
        = .error (.shapeMismatch name a.shape nFrames nPoints)) ∧
    (∀ (α : Type) (nFrames : Option Nat) (name : String) (a : NDArray α) (t : List Nat),
      t ∈ [[3], [4]] → a.shape = 4 :: t →
      Scatter.tile_data nFrames 5 [[3], [4]] name a
        = .error (.shapeMismatch name a.shape nFrames 5) ∧
      Plot.tile_data nFrames [5] [[3], [4]] name a
        = .error (.shapeMismatch name a.shape nFrames 5)) := by
  have main : ∀ (α : Type) (nFrames : Option Nat) (nPoints : Nat) (valid : List (List Nat))
      (name : String) (a : NDArray α),
      tileCase1? nFrames nPoints valid a.shape = none →
      tileCase2? nPoints valid a.shape = none →
      a.shape ∉ valid →
      Scatter.tile_data nFrames nPoints valid name a
        = .error (.shapeMismatch name a.shape nFrames nPoints) ∧
      Plot.tile_data nFrames [nPoints] valid name a
        = .error (.shapeMismatch name a.shape nFrames nPoints) := by
    intro α nFrames nPoints valid name a h1 h2 h3
    have hs : Scatter.tile_data nFrames nPoints valid name a
        = .error (.shapeMismatch name a.shape nFrames nPoints) := by
      unfold Scatter.tile_data
      rw [h1, h2]
      simp [h3]
    exact ⟨hs, by rw [Plot.tile_data_eq_scatter]; exact hs⟩
  refine ⟨main, ?_⟩
  intro α nFrames name a t hmem hshape
  have ht : t = [3] ∨ t = [4] := by simpa using hmem
  rcases ht with rfl | rfl
  · exact main α nFrames 5 [[3], [4]] name a
      (by rw [hshape]; simp [tileCase1?]) (by rw [hshape]; simp [tileCase2?])
      (by rw [hshape]; decide)
  · exact main α nFrames 5 [[3], [4]] name a
      (by rw [hshape]; simp [tileCase1?]) (by rw [hshape]; simp [tileCase2?])
      (by rw [hshape]; decide)

theorem C8_shape_mismatch_witness :
    Scatter.tile_data (some 2) 5 [[3], [4]] "color" (⟨[4, 3], List.range 12⟩ : NDArray Nat)
      = .error (.shapeMismatch "color" [4, 3] (some 2) 5) ∧
    Plot.tile_data (some 2) [5] [[3], [4]] "color" (⟨[4, 3], List.range 12⟩ : NDArray Nat)
      = .error (.shapeMismatch "color" [4, 3] (some 2) 5) :=
  C8_shape_mismatch.2 Nat (some 2) "color" ⟨[4, 3], List.range 12⟩ [3] (by decide) rfl

/-- C5 counterexample: for n_points_x=3, n_points_y=2, n_frames=1 the code
produces 2 quads per frame, so the total face count (the number of rows of the
faces array reshaped to (-1, 4) by Surface.get_geometry) is 2, not 1. -/
theorem C5_counterexample :
    get_faces 3 2 1 = [[[0, 1, 4, 3], [1, 2, 5, 4]]] ∧
    ((get_faces 3 2 1).flatten).length = 2 ∧
    ¬ ((get_faces 3 2 1).flatten).length = 1 := by decide

/-- C5 (amended): for every frame j and every row-major cell index i that is
not a row's wrap-around cell, get_faces yields the quad
[i, i+1, i+n_points_x+1, i+n_points_x] offset by the frame's vertex base; for
n_points_x=3, n_points_y=2, n_frames=1 it produces exactly 2 quads per frame
with total face count 2. -/
theorem C5_surface_topology :
    (∀ (nx ny nf j i : Nat), j < nf → i < nx * (ny - 1) → (i + 1) % nx ≠ 0 →
      ∃ fr, (get_faces nx ny nf)[j]? = some fr ∧
        [j * nx * ny + i, j * nx * ny + (i + 1),
         j * nx * ny + (i + nx + 1), j * nx * ny + (i + nx)] ∈ fr) ∧
    get_faces 3 2 1 = [[[0, 1, 4, 3], [1, 2, 5, 4]]] ∧
    ((get_faces 3 2 1).flatten).length = 2 := by
  refine ⟨?_, by decide, by decide⟩
  intro nx ny nf j i hj hi hwrap
  refine ⟨((List.range (nx * (ny - 1))).filter (fun k => (k + 1) % nx != 0)).map
      (fun k => [j * nx * ny + k, j * nx * ny + (k + 1),
                 j * nx * ny + (k + nx + 1), j * nx * ny + (k + nx)]), ?_, ?_⟩
  · unfold get_faces
    rw [List.getElem?_map, List.getElem?_range hj]
    rfl
  · apply List.mem_map.mpr
    refine ⟨i, ?_, rfl⟩
    apply List.mem_filter.mpr
    exact ⟨List.mem_range.mpr hi, by simpa using hwrap⟩

theorem C5_surface_topology_witness :
    ∃ fr, (get_faces 3 2 1)[0]? = some fr ∧
      [0 * 3 * 2 + 0, 0 * 3 * 2 + (0 + 1), 0 * 3 * 2 + (0 + 3 + 1), 0 * 3 * 2 + (0 + 3)] ∈ fr :=
  C5_surface_topology.1 3 2 1 0 0 (by decide) (by decide) (by decide)

theorem Plot.update_points_shape {s s2 : PlotState}
    (h : Plot.update_points s = .ok s2) : s2.pointsShape = s.pointsShape := by
  unfold Plot.update_points at h
  split at h
  · exact absurd h (by simp)
  · split at h
    · cases h; rfl
    · split at h
      · cases h; rfl
      · exact absurd h (by simp)

/-- C3 counterexample: a Scatter instance with stored points of shape (2, 3)
accepts an assignment of shape (5, 3): the stored shape changes to (5, 3)
before the mismatched foreach_set push reaches the backend, so the locked
shape does change and no error is raised by the library code itself. -/
theorem C3_counterexample :
    (Scatter.set_points ⟨some [2, 3], some 2⟩ [5, 3]).1.pointsShape = some [5, 3] ∧
    (some [5, 3] : Option (List Nat)) ≠ some [2, 3] ∧
    (Scatter.set_points ⟨some [2, 3], some 2⟩ [5, 3]).2 = .foreachSetCo 5 2 := by decide

/-- C3 (amended): for plots_base.Plot instances (Arrows, Surface) the claim
holds: once points are set, a later assignment either has exactly the stored
shape (and keeps the stored shape) or raises the ValueError before any
mutation; the standalone Scatter class however performs no shape check: its
setter stores the new array, changing the stored shape, before the backend
push. -/
theorem C3_shape_locked :
    (∀ (s : PlotState) (old newShape : List Nat) (s2 : PlotState),
      s.pointsShape = some old →
      (Plot.set_points s newShape = .ok s2 →
        newShape = old ∧ s2.pointsShape = some old) ∧
      (newShape ≠ old →
        Plot.set_points s newShape = .error (.cantChangePoints old old))) ∧
    (∀ (s : ScatterState) (newShape : List Nat),
      (Scatter.set_points s newShape).1.pointsShape = some newShape) := by
  constructor
  · intro s old newShape s2 hold
    constructor
    · intro hok
      unfold Plot.set_points at hok
      rw [hold] at hok
      by_cases hne : newShape = old
      · subst hne
        refine ⟨rfl, ?_⟩
        have hok2 : (if newShape ≠ newShape then
              Except.error (PlotError.cantChangePoints newShape newShape)
            else Plot.update_points
              { pointsShape := some newShape, meshVertices := s.meshVertices })
            = Except.ok s2 := hok
        rw [if_neg (by simp)] at hok2
        have := Plot.update_points_shape hok2
        rw [this]
      · have hok2 : (if newShape ≠ old then
              Except.error (PlotError.cantChangePoints old old)
            else Plot.update_points
              { pointsShape := some newShape, meshVertices := s.meshVertices })
            = Except.ok s2 := hok
        rw [if_pos hne] at hok2
        exact absurd hok2 (by simp)
    · intro hne
      unfold Plot.set_points
      rw [hold]
      show (if newShape ≠ old then Except.error (PlotError.cantChangePoints old old)
          else Plot.update_points
            { pointsShape := some newShape, meshVertices := s.meshVertices })
        = Except.error (PlotError.cantChangePoints old old)
      rw [if_pos hne]
  · intro s newShape
    obtain ⟨ps, mv⟩ := s
    cases mv <;> rfl

theorem C3_shape_locked_witness :
    Plot.set_points ⟨some [2, 3], 2⟩ [5, 3] = .error (.cantChangePoints [2, 3] [2, 3]) ∧
    (Scatter.set_points ⟨some [2, 3], some 2⟩ [7, 3]).1.pointsShape = some [7, 3] :=
  ⟨(C3_shape_locked.1 ⟨some [2, 3], 2⟩ [2, 3] [5, 3] ⟨some [2, 3], 2⟩ rfl).2 (by decide),
   C3_shape_locked.2 ⟨some [2, 3], some 2⟩ [7, 3]⟩

/-- C4 counterexample: constructing Arrows with both end and vector does raise
the mutual-exclusion ValueError, but only after the backend has been mutated:
the recorded operation trace already contains the mesh/object/modifier
creation and the arrow node-graph build when the error is raised. -/
theorem C4_counterexample :
    (Arrows.init_ops Nat [2, 3] none (some [3]) (some [3])).2
      = .error .bothEndAndVector ∧
    BackendOp.newMesh ∈ (Arrows.init_ops Nat [2, 3] none (some [3]) (some [3])).1 ∧
    BackendOp.buildArrowGraph ∈ (Arrows.init_ops Nat [2, 3] none (some [3]) (some [3])).1 ∧
    (Arrows.init_ops Nat [2, 3] none (some [3]) (some [3])).1 ≠ [] := by decide

/-- C4 (amended): constructing an Arrows plot with both end and vector
supplied (and coordinates that parse) fails with the mutual-exclusion
ValueError, but the failure occurs only after backend mutation: the base
mesh, scene object and modifier have been created and the arrow node graph
built when the error is raised. -/
theorem C4_arrows_mutual_exclusion :
    ∀ (α : Type) (xShape : List Nat) (res : List Nat × Option Nat × List Nat)
      (vecShape endShape : List Nat),
      get_points_array xShape none 1 = some res →
      (Arrows.init_ops α xShape none (some vecShape) (some endShape)).2
        = .error .bothEndAndVector ∧
      BackendOp.newMesh ∈ (Arrows.init_ops α xShape none (some vecShape) (some endShape)).1 ∧
      BackendOp.buildArrowGraph
        ∈ (Arrows.init_ops α xShape none (some vecShape) (some endShape)).1 := by
  intro α xShape res vecShape endShape hparse
  obtain ⟨ps, nF, dims⟩ := res
  unfold Arrows.init_ops
  rw [hparse]
  dsimp only
  unfold Arrows.rest_ops
  rw [if_pos (by simp)]
  refine ⟨rfl, ?_, ?_⟩ <;> simp

theorem C4_arrows_mutual_exclusion_witness :
    (Arrows.init_ops Nat [4, 3] none (some [3]) (some [4, 3])).2
      = .error .bothEndAndVector ∧
    BackendOp.newMesh ∈ (Arrows.init_ops Nat [4, 3] none (some [3]) (some [4, 3])).1 ∧
    BackendOp.buildArrowGraph
      ∈ (Arrows.init_ops Nat [4, 3] none (some [3]) (some [4, 3])).1 :=
  C4_arrows_mutual_exclusion Nat [4, 3] ([4, 3], none, [4]) [3] [4, 3] (by decide)

theorem toDecAux_eq : ∀ f n : Nat, n < f → toDecAux f n = natDec n := by
  intro f
  induction f using Nat.strong_induction_on with
  | _ f ih =>
    intro n h
    cases f with
    | zero => exact absurd h (by omega)
    | succ f =>
      show (if n < 10 then [digitChar n]
        else toDecAux f (n / 10) ++ [digitChar (n % 10)]) = natDec n
      by_cases h10 : n < 10
      · rw [if_pos h10]
        show _ = (if n < 10 then [digitChar n]
          else toDecAux n (n / 10) ++ [digitChar (n % 10)])
        rw [if_pos h10]
      · rw [if_neg h10]
        have hd : n / 10 < n := Nat.div_lt_self (by omega) (by omega)
        show _ = (if n < 10 then [digitChar n]
          else toDecAux n (n / 10) ++ [digitChar (n % 10)])
        rw [if_neg h10]
        have h1 : toDecAux f (n / 10) = natDec (n / 10) := ih f (by omega) (n / 10) (by omega)
        have h2 : toDecAux n (n / 10) = natDec (n / 10) := ih n h (n / 10) hd
        rw [h1, h2]

theorem natDec_small {n : Nat} (h : n < 10) : natDec n = [digitChar n] := by
  show (if n < 10 then [digitChar n] else toDecAux n (n / 10) ++ [digitChar (n % 10)]) = _
  rw [if_pos h]

theorem natDec_large {n : Nat} (h : ¬ n < 10) :
    natDec n = natDec (n / 10) ++ [digitChar (n % 10)] := by
  show (if n < 10 then [digitChar n] else toDecAux n (n / 10) ++ [digitChar (n % 10)]) = _
  rw [if_neg h, toDecAux_eq n (n / 10) (Nat.div_lt_self (by omega) (by omega))]

theorem natDec_ne_nil (n : Nat) : natDec n ≠ [] := by
  by_cases h : n < 10
  · rw [natDec_small h]
    simp
  · rw [natDec_large h]
    simp

theorem digitChar_inj : ∀ a, a < 10 → ∀ b, b < 10 → digitChar a = digitChar b → a = b := by
  decide

theorem natDec_inj : ∀ a b : Nat, natDec a = natDec b → a = b := by
  intro a
  induction a using Nat.strong_induction_on with
  | _ a ih =>
    intro b h
    by_cases ha : a < 10 <;> by_cases hb : b < 10
    · rw [natDec_small ha, natDec_small hb] at h
      simp only [List.cons.injEq, and_true] at h
      exact digitChar_inj a ha b hb h
    · exfalso
      rw [natDec_small ha, natDec_large hb] at h
      have hl := congrArg List.length h
      simp only [List.length_cons, List.length_nil, List.length_append] at hl
      have : (natDec (b / 10)).length = 0 := by omega
      exact natDec_ne_nil _ (List.length_eq_zero.mp this)
    · exfalso
      rw [natDec_large ha, natDec_small hb] at h
      have hl := congrArg List.length h
      simp only [List.length_cons, List.length_nil, List.length_append] at hl
      have : (natDec (a / 10)).length = 0 := by omega
      exact natDec_ne_nil _ (List.length_eq_zero.mp this)
    · rw [natDec_large ha, natDec_large hb] at h
      have hparts := List.append_inj' h (by simp)
      have hq : a / 10 = b / 10 :=
        ih (a / 10) (Nat.div_lt_self (by omega) (by omega)) (b / 10) hparts.1
      have hr : a % 10 = b % 10 := by
        have := hparts.2
        simp only [List.cons.injEq, and_true] at this
        exact digitChar_inj _ (Nat.mod_lt _ (by omega)) _ (Nat.mod_lt _ (by omega)) this
      omega

theorem socket_input_key_inj (v4 : Bool) {i j : Nat}
    (h : socket_input_key v4 i = socket_input_key v4 j) : i = j := by
  unfold socket_input_key at h
  cases v4 <;>
  · have hd := congrArg String.data h
    exact natDec_inj _ _ (List.append_cancel_left hd)

theorem declare_fold (v4 : Bool) :
    ∀ (names : List String) (d : List (String × String)) (ks : List String),
    names.Nodup →
    (∀ n ∈ names, d.any (fun p => p.1 == n) = false) →
    names.foldl (declare_step v4) (d, ks)
      = (d ++ (declare_spec v4 d.length names).1,
         ks ++ (declare_spec v4 d.length names).2) := by
  intro names
  induction names with
  | nil => intro d ks _ _; simp [declare_spec]
  | cons n rest ih =>
    intro d ks hnd hfresh
    have hstep : declare_step v4 (d, ks) n
        = (d ++ [(n, socket_input_key v4 (d.length + 2))],
           ks ++ [socket_input_key v4 (d.length + 2)]) := by
      unfold declare_step new_input_socket dictInsert
      rw [hfresh n (by simp)]
      simp
    show List.foldl (declare_step v4) (declare_step v4 (d, ks) n) rest = _
    rw [hstep,
      ih (d ++ [(n, socket_input_key v4 (d.length + 2))])
        (ks ++ [socket_input_key v4 (d.length + 2)])
        (List.nodup_cons.mp hnd).2
        (by
          intro m hm
          have hne : n ≠ m := fun heq => (List.nodup_cons.mp hnd).1 (heq ▸ hm)
          have h1 := hfresh m (by simp [hm])
          simp [List.any_append, h1, hne])]
    simp [declare_spec, List.append_assoc]

theorem declare_spec_keys (v4 : Bool) :
    ∀ (names : List String) (base : Nat),
      (declare_spec v4 base names).2
        = (List.range names.length).map (fun i => socket_input_key v4 (base + 2 + i)) := by
  intro names
  induction names with
  | nil => intro base; simp [declare_spec]
  | cons n rest ih =>
    intro base
    show socket_input_key v4 (base + 2) :: (declare_spec v4 (base + 1) rest).2 = _
    simp only [List.length_cons]
    rw [ih (base + 1), List.range_succ_eq_map, List.map_cons, List.map_map]
    refine congrArg₂ _ (by simp) ?_
    apply List.map_congr_left
    intro i _
    show socket_input_key v4 (base + 1 + 2 + i) = socket_input_key v4 (base + 2 + (i + 1))
    have : base + 1 + 2 + i = base + 2 + (i + 1) := by omega
    rw [this]

theorem declare_spec_pairs (v4 : Bool) :
    ∀ (names : List String) (base : Nat),
      (declare_spec v4 base names).1 = names.zip (declare_spec v4 base names).2 := by
  intro names
  induction names with
  | nil => intro base; rfl
  | cons n rest ih =>
    intro base
    show (n, socket_input_key v4 (base + 2)) :: (declare_spec v4 (base + 1) rest).1 = _
    rw [ih (base + 1)]
    rfl

/-- C7 counterexample: declaring the names A, A, B in order assigns the keys
Socket_2, Socket_3, Socket_3 — the repeated declaration collides with the
following one, and the key of the third declaration depends on the earlier
names (with A, C, B it would be Socket_4), not solely on its position. -/
theorem C7_counterexample :
    (declare_sequence true ["A", "A", "B"]).2
      = [socket_input_key true 2, socket_input_key true 3, socket_input_key true 3] ∧
    ¬ (declare_sequence true ["A", "A", "B"]).2.Nodup ∧
    (declare_sequence true ["A", "C", "B"]).2[2]? = some (socket_input_key true 4) ∧
    (declare_sequence true ["A", "A", "B"]).2[2]?
      ≠ (declare_sequence true ["A", "C", "B"]).2[2]? := by decide

/-- C7 (amended): the internal key of each declaration derives from the
current registry size (the number of distinct names declared so far) plus 2,
not from the raw position; for a sequence of pairwise-distinct names this
coincides with position + 2, the assigned keys are pairwise distinct, and the
registry maps each name to its assigned key; a repeated name however keeps
the registry size unchanged, so its key collides with the next fresh one, as
the counterexample shows. -/
theorem C7_socket_keys (v4 : Bool) (names : List String) (hnd : names.Nodup) :
    (declare_sequence v4 names).2
      = (List.range names.length).map (fun i => socket_input_key v4 (i + 2)) ∧
    (declare_sequence v4 names).2.Nodup ∧
    (declare_sequence v4 names).1 = names.zip (declare_sequence v4 names).2 := by
  have hfold := declare_fold v4 names [] [] hnd (by intro n _; simp)
  have hkeys := declare_spec_keys v4 names 0
  have hpairs := declare_spec_pairs v4 names 0
  unfold declare_sequence
  rw [hfold]
  simp only [List.nil_append, List.length_nil]
  have hkeys2 : (declare_spec v4 0 names).2
      = (List.range names.length).map (fun i => socket_input_key v4 (i + 2)) := by
    rw [hkeys]
    apply List.map_congr_left
    intro i _
    have : 0 + 2 + i = i + 2 := by omega
    rw [this]
  refine ⟨hkeys2, ?_, by rw [hpairs]⟩
  rw [hkeys2]
  refine List.Nodup.map ?_ (List.nodup_range _)
  intro i j hij
  have := socket_input_key_inj v4 hij
  omega

theorem C7_socket_keys_witness :
    (declare_sequence true ["Point Color", "Point Instance"]).2
      = (List.range 2).map (fun i => socket_input_key true (i + 2)) ∧
    (declare_sequence true ["Point Color", "Point Instance"]).2.Nodup ∧
    (declare_sequence true ["Point Color", "Point Instance"]).1
      = ["Point Color", "Point Instance"].zip
          (declare_sequence true ["Point Color", "Point Instance"]).2 :=
  C7_socket_keys true ["Point Color", "Point Instance"] (by decide)

/-- C9: a binding whose value is None is skipped entirely by new_node — no
edge, no default, no attribute assignment and no error, even when the key is
invalid for the node — so processing a kwarg list equals processing its
non-None bindings only; the unknown-key ValueError is raised only for a
non-None value. -/
theorem C9_none_skipped :
    (∀ (node : NodeModel) (key : String), processKwarg node key none = .ok []) ∧
    (∀ (node : NodeModel) (kwargs : List (String × Option KwargValue)),
      processKwargs node kwargs
        = processKwargs node (kwargs.filter (fun p => p.2.isSome))) ∧
    (∀ (node : NodeModel) (key : String) (nm : String) (c : Int),
      toBlenderKey key = .socketName nm →
      node.inputs.find? (fun p => p.1 == nm) = none →
      key ∉ node.attrs →
      processKwarg node key (some (.const c))
        = .error (.missingSocket key (.socketName nm)) ∧
      processKwarg node key none = .ok []) := by
  refine ⟨fun _ _ => rfl, ?_, ?_⟩
  · intro node kwargs
    induction kwargs with
    | nil => rfl
    | cons p rest ih =>
      obtain ⟨k, v⟩ := p
      cases v with
      | none =>
        show processKwargs node ((k, none) :: rest) = _
        have hl : processKwargs node ((k, none) :: rest) = processKwargs node rest := by
          show (match processKwarg node k none with
            | .error e => Except.error e
            | .ok es =>
              match processKwargs node rest with
              | .error e => Except.error e
              | .ok es2 => Except.ok (es ++ es2)) = _
          show (match processKwargs node rest with
            | .error e => Except.error (α := List NodeEffect) e
            | .ok es2 => Except.ok ([] ++ es2)) = _
          cases processKwargs node rest <;> simp
        rw [hl, ih]
        rfl
      | some v0 =>
        show processKwargs node ((k, some v0) :: rest) = _
        have hr : (((k, some v0) :: rest).filter (fun p => p.2.isSome))
            = (k, some v0) :: rest.filter (fun p => p.2.isSome) := by
          simp [List.filter_cons]
        rw [hr]
        show (match processKwarg node k (some v0) with
          | .error e => Except.error e
          | .ok es =>
            match processKwargs node rest with
            | .error e => Except.error e
            | .ok es2 => Except.ok (es ++ es2)) = _
        rw [ih]
        rfl
  · intro node key nm c hbk hfind hattr
    refine ⟨?_, rfl⟩
    unfold processKwarg
    rw [hbk]
    show (match node.inputs.find? (fun p => p.1 == nm) with
      | some entry =>
        if entry.2 then Except.ok [NodeEffect.setDefault (.socketName nm) c]
        else if key ∈ node.attrs then Except.ok [NodeEffect.setAttr key (.const c)]
        else Except.error (NodeError.missingSocket key (.socketName nm))
      | none =>
        if key ∈ node.attrs then Except.ok [NodeEffect.setAttr key (.const c)]
        else Except.error (NodeError.missingSocket key (.socketName nm))) = _
    rw [hfind, if_neg hattr]

theorem C9_none_skipped_witness :
    processKwarg ⟨[("Geometry", true)], ["operation"]⟩ "bogus_key" (some (.const 7))
      = .error (.missingSocket "bogus_key" (.socketName "Bogus Key")) ∧
    processKwarg ⟨[("Geometry", true)], ["operation"]⟩ "bogus_key" none = .ok [] :=
  C9_none_skipped.2.2 ⟨[("Geometry", true)], ["operation"]⟩ "bogus_key" "Bogus Key" 7
    (by decide) (by decide) (by decide)

/-- C10: an (n, 3) color array gets alpha 1.0 appended to every row before
being pushed (every stored row has 4 components when the inputs do), an
(n, 4) array is pushed unchanged, any other trailing size raises the
invalid-shape ValueError, and a row count different from the mesh's vertex
count raises the count ValueError with nothing pushed. -/
theorem C10_vertex_colors :
    (∀ (n : Nat) (color : List (List ℚ)), n = color.length →
      set_vertex_colors n 3 color = .ok (color.map (fun row => row ++ [1])) ∧
      ((∀ row ∈ color, row.length = 3) →
        ∀ row2 ∈ color.map (fun row => row ++ [1]), row2.length = 4)) ∧
    (∀ (n : Nat) (color : List (List ℚ)), n = color.length →
      set_vertex_colors n 4 color = .ok color) ∧
    (∀ (n cols : Nat) (color : List (List ℚ)), cols ≠ 3 → cols ≠ 4 →
      set_vertex_colors n cols color = .error (.invalidShape [color.length, cols])) ∧
    (∀ (n cols : Nat) (color : List (List ℚ)), (cols = 3 ∨ cols = 4) →
      n ≠ color.length →
      set_vertex_colors n cols color = .error (.countMismatch n color.length)) := by
  refine ⟨?_, ?_, ?_, ?_⟩
  · intro n color hn
    constructor
    · unfold set_vertex_colors
      rw [if_pos rfl]
      show (if n ≠ (color.map (fun row => row ++ [1])).length then
          Except.error (ColorError.countMismatch n (color.map (fun row => row ++ [1])).length)
        else Except.ok (color.map (fun row => row ++ [1]))) = _
      rw [if_neg (by simp [hn])]
    · intro hrows row2 hrow2
      obtain ⟨row, hrow, rfl⟩ := List.mem_map.mp hrow2
      simp [hrows row hrow]
  · intro n color hn
    unfold set_vertex_colors
    rw [if_neg (by norm_num), if_neg (by norm_num)]
    show (if n ≠ color.length then Except.error (ColorError.countMismatch n color.length)
      else Except.ok color) = _
    rw [if_neg (by simp [hn])]
  · intro n cols color h3 h4
    unfold set_vertex_colors
    rw [if_neg h3, if_pos h4]
  · intro n cols color hc hn
    rcases hc with rfl | rfl
    · unfold set_vertex_colors
      rw [if_pos rfl]
      show (if n ≠ (color.map (fun row => row ++ [1])).length then
          Except.error (ColorError.countMismatch n (color.map (fun row => row ++ [1])).length)
        else Except.ok (color.map (fun row => row ++ [1]))) = _
      rw [if_pos (by simpa using hn)]
      simp
    · unfold set_vertex_colors
      rw [if_neg (by norm_num), if_neg (by norm_num)]
      show (if n ≠ color.length then Except.error (ColorError.countMismatch n color.length)
        else Except.ok color) = _
      rw [if_pos hn]

theorem C10_vertex_colors_witness :
    set_vertex_colors 2 3 [[1, 0, 0], [0, 1, 0]]
      = .ok [[1, 0, 0, 1], [0, 1, 0, 1]] ∧
    set_vertex_colors 3 3 [[1, 0, 0], [0, 1, 0]] = .error (.countMismatch 3 2) ∧
    set_vertex_colors 2 5 [[1, 0, 0, 0, 0], [0, 1, 0, 0, 0]]
      = .error (.invalidShape [2, 5]) := by
  refine ⟨?_, ?_, ?_⟩
  · have h := (C10_vertex_colors.1 2 [[1, 0, 0], [0, 1, 0]] rfl).1
    rw [h]
    rfl
  · have h := C10_vertex_colors.2.2.2 3 3 [[1, 0, 0], [0, 1, 0]] (Or.inl rfl) (by decide)
    rw [h]
    rfl
  · have h := C10_vertex_colors.2.2.1 2 5 [[1, 0, 0, 0, 0], [0, 1, 0, 0, 0]]
      (by decide) (by decide)
    rw [h]
    rfl

end BlenderPlots
